import Mathlib

/-!
Verification of the resilient multi-source market-data aggregation pipeline:
string utilities, the sector normalizer, the selector fallback engine, the
multi-source institutional-data combiner, the keyword news classifier, the
news-highlights assembly, and the aggregation orchestrator, embedded from
the Python sources in stock/sector_fii_scraper.py, stock/news_highlights.py
and stock/api.py.
-/

/-! ## String utilities

Python string primitives used by the pipeline: lower-casing, substring
containment (the Python `in` operator) and str.title, modelled over the
character lists of Lean strings. -/

/-- ASCII lower-casing of a string, modelling Python str.lower on the
ASCII inputs the pipeline handles. -/
def strLower (s : String) : String := ⟨s.data.map Char.toLower⟩

/-- Whether the second list is a leading segment of the first argument list:
helper for substring search. -/
def listStartsWith : List Char → List Char → Bool
  | [], _ => true
  | _ :: _, [] => false
  | a :: as, b :: bs => a == b && listStartsWith as bs

/-- Whether the needle occurs as a contiguous run anywhere in the haystack. -/
def listHasSub (needle : List Char) : List Char → Bool
  | [] => needle.isEmpty
  | c :: rest => listStartsWith needle (c :: rest) || listHasSub needle rest

/-- Python substring containment test: needle occurs in hay. -/
def strContains (hay needle : String) : Bool := listHasSub needle.data hay.data

/-- One step of Python str.title: the boolean tracks whether the previous
character was alphabetic. -/
def titleCaseGo : Bool → List Char → List Char
  | _, [] => []
  | prevAlpha, c :: cs =>
    if c.isAlpha then
      (if prevAlpha then c.toLower else c.toUpper) :: titleCaseGo true cs
    else
      c :: titleCaseGo false cs

/-- Python str.title on ASCII text: the first letter of every
maximal alphabetic run is upper-cased and the rest lower-cased. -/
def titleCase (s : String) : String := ⟨titleCaseGo false s.data⟩

/-! ## Sector normalizer (stock/sector_fii_scraper.py, MarketDataScraper)

SectorRecord is the dictionary built per table row in
MarketDataScraper._process_trendlyne_sector; map_to_standard_sector is
MarketDataScraper._map_to_standard_sector; scrape_sector_data is the
post-accumulation phase of MarketDataScraper.scrape_sector_data
(values of the accumulation dict, sorted descending by change
percentage, truncated to 11). -/

/-- One normalized sector row, as built in _process_trendlyne_sector. -/
structure SectorRecord where
  sector_name : String
  num_companies : Int
  advances : Int
  declines : Int
  change_percentage : Rat
  source : String
deriving DecidableEq, Repr

/-- MarketDataScraper._map_to_standard_sector: lower-case the raw label and
test the taxonomy keyword lists by substring containment in a fixed branch
order; an unmatched label passes through title-cased. -/
def map_to_standard_sector (sector_name : String) : String :=
  let s := strLower sector_name
  if (["it", "software", "tech", "information"].any (strContains s)) then
    "Information Technology"
  else if (["bank", "finance", "financial", "nbfc"].any (strContains s)) then
    "Banking & Financial Services"
  else if (["pharma", "health", "medical", "drug"].any (strContains s)) then
    "Pharmaceuticals & Healthcare"
  else if (["energy", "oil", "gas", "petrol", "power"].any (strContains s)) then
    "Energy"
  else if (["fmcg", "consumer goods"].any (strContains s)) then
    "FMCG"
  else if (["auto", "automobile", "vehicle"].any (strContains s)) then
    "Automobiles"
  else if (["real estate", "realty", "property"].any (strContains s)) then
    "Realty"
  else if (["infra", "construction", "cement"].any (strContains s)) then
    "Infrastructure"
  else if (["metal", "steel", "mining", "mineral"].any (strContains s)) then
    "Metals and Mining"
  else if (["telecom", "communication"].any (strContains s)) then
    "Telecom"
  else if (["agri", "chemical", "fertilizer"].any (strContains s)) then
    "Agriculture and Chemicals"
  else
    titleCase s

/-- Descending comparison used by scrape_sector_data: an earlier record must
have a change percentage at least that of a later one. -/
def sectorDescGe (a b : SectorRecord) : Prop :=
  b.change_percentage ≤ a.change_percentage

instance (a b : SectorRecord) : Decidable (sectorDescGe a b) := by
  unfold sectorDescGe; infer_instance

/-- Insert one record into a list already sorted descending by change
percentage, keeping it sorted. -/
def insertDesc (r : SectorRecord) : List SectorRecord → List SectorRecord
  | [] => [r]
  | x :: xs =>
    if r.change_percentage ≤ x.change_percentage then x :: insertDesc r xs
    else r :: x :: xs

/-- Stable sort of sector records descending by change percentage, modelling
the Python list.sort with a change-percentage key and reverse set. -/
def sortSectorsDesc : List SectorRecord → List SectorRecord
  | [] => []
  | r :: rest => insertDesc r (sortSectorsDesc rest)

/-- Post-accumulation phase of MarketDataScraper.scrape_sector_data: the
accumulated sector records are sorted descending by change percentage and
truncated to the top 11. -/
def scrape_sector_data (sector_values : List SectorRecord) : List SectorRecord :=
  (sortSectorsDesc sector_values).take 11

/-! ## Selector fallback engine (MarketDataScraper._process_trendlyne_sector)

Each CSS selector strategy is modelled by its outcome on the page: none
when the selector matches no table, and some rows when a table is found
and parsed into zero or more sector rows. The engine walks the strategy
list in order and stops at the first strategy whose parsed rows are
non-empty; the returned number counts how many strategies were invoked. -/

/-- _process_trendlyne_sector selector loop: returns the rows of the first
strategy that parses at least one row together with the count of strategies
invoked; when every strategy yields no rows it returns the empty list after
invoking all of them. -/
def process_trendlyne_sector :
    List (Option (List SectorRecord)) → List SectorRecord × Nat
  | [] => ([], 0)
  | none :: rest =>
    let r := process_trendlyne_sector rest
    (r.1, r.2 + 1)
  | some rows :: rest =>
    if 0 < rows.length then (rows, 1)
    else
      let r := process_trendlyne_sector rest
      (r.1, r.2 + 1)

/-! ## Multi-source institutional combiner (MarketDataScraper.scrape_institutional_data) -/

/-- The buy, sell and net components of one FII or DII record. -/
structure InstValues where
  buy_value : Rat
  sell_value : Rat
  net_value : Rat
deriving DecidableEq, Repr

/-- One per-source institutional record as built by the MoneyControl and
Trendlyne processors. -/
structure InstRecord where
  fii : InstValues
  dii : InstValues
  source : String
deriving DecidableEq, Repr

/-- The all-zero component record. -/
def zeroInstValues : InstValues := { buy_value := 0, sell_value := 0, net_value := 0 }

/-- One iteration of the accumulation loop in scrape_institutional_data:
add the six numeric fields of one source record into the accumulator. -/
def combineStep (acc d : InstRecord) : InstRecord :=
  { acc with
      fii :=
        { buy_value := acc.fii.buy_value + d.fii.buy_value
          sell_value := acc.fii.sell_value + d.fii.sell_value
          net_value := acc.fii.net_value + d.fii.net_value }
      dii :=
        { buy_value := acc.dii.buy_value + d.dii.buy_value
          sell_value := acc.dii.sell_value + d.dii.sell_value
          net_value := acc.dii.net_value + d.dii.net_value } }

/-- Combination phase of MarketDataScraper.scrape_institutional_data: with a
non-empty record list, sum each of the six numeric fields across sources and
divide by the number of sources, with the comma-joined successful source
names as provenance; with no records, return the zero-valued placeholder
with source set to the no-data sentinel. -/
def scrape_institutional_data (all_institutional_data : List InstRecord)
    (sources_successful : List String) : InstRecord :=
  if all_institutional_data ≠ [] then
    let combined := all_institutional_data.foldl combineStep
      { fii := zeroInstValues, dii := zeroInstValues
        source := String.intercalate ", " sources_successful }
    let num_sources : Rat := (all_institutional_data.length : Rat)
    { combined with
        fii :=
          { buy_value := combined.fii.buy_value / num_sources
            sell_value := combined.fii.sell_value / num_sources
            net_value := combined.fii.net_value / num_sources }
        dii :=
          { buy_value := combined.dii.buy_value / num_sources
            sell_value := combined.dii.sell_value / num_sources
            net_value := combined.dii.net_value / num_sources } }
  else
    { fii := zeroInstValues, dii := zeroInstValues, source := "No data available" }

/-! ## News classifier (stock/news_highlights.py) -/

/-- One scraped article as produced by FinancialNewsScraper.extract_article. -/
structure Article where
  title : String
  summary : String
  source : String
deriving DecidableEq, Repr

/-- The impact keyword list of SimpleNewsClassifier. -/
def impact_keywords : List String :=
  ["policy", "regulation", "economy", "inflation", "recession", "central bank",
   "fed", "federal reserve", "interest rate", "gdp", "treasury",
   "economic growth", "fiscal", "monetary", "budget", "minister", "government",
   "tax", "deficit", "stimulus", "debt", "tariff", "market crash", "rally",
   "volatility", "crisis", "emergency", "warning", "alert", "critical",
   "major", "significant", "breakthrough", "disruption", "transformation",
   "revolution"]

/-- The India keyword list of SimpleNewsClassifier. -/
def india_keywords : List String :=
  ["india", "indian", "mumbai", "delhi", "bse", "nse", "sensex", "nifty",
   "rupee", "rbi", "sebi", "finance minister", "pm modi", "government of india",
   "indian economy", "indian market", "indian stock", "indian rupee",
   "indian banks", "indian companies"]

/-- The global keyword list of SimpleNewsClassifier. -/
def global_keywords : List String :=
  ["global", "world", "international", "foreign", "overseas", "europe", "asia",
   "america", "china", "japan", "uk", "us", "european", "asian", "american",
   "foreign exchange", "forex", "global market", "world economy",
   "international trade", "global economy", "world market"]

/-- Keyword test of the classifier loop: some keyword of the list occurs in
the lowered title or in the lowered summary. -/
def keywordHit (title summary : String) (keywords : List String) : Bool :=
  keywords.any (fun keyword => strContains title keyword || strContains summary keyword)

/-- The three news buckets of SimpleNewsClassifier. -/
inductive NewsCategory where
  | impact
  | india
  | globalNews
deriving DecidableEq, Repr

/-- The lowered title used by the classifier loop body. -/
def articleTitleLower (a : Article) : String := strLower a.title

/-- The lowered summary used by the classifier loop body: the no-summary
sentinel is replaced by the empty string. -/
def articleSummaryLower (a : Article) : String :=
  if a.summary == "No summary available" then "" else strLower a.summary

/-- The bullet string built for each article in categorize_news. -/
def bulletOf (a : Article) : String :=
  a.title ++ " (Source: " ++ a.source ++ ")"

/-- The per-article branch of SimpleNewsClassifier.categorize_news: impact
keywords have priority over India keywords, which have priority over global
keywords; an article matching none goes to impact when its source is a major
source and to global otherwise. -/
def classifyArticle (a : Article) : NewsCategory :=
  let title := articleTitleLower a
  let summary := articleSummaryLower a
  let is_impact := keywordHit title summary impact_keywords
  let is_india := keywordHit title summary india_keywords
  let is_global := keywordHit title summary global_keywords
  if is_impact then NewsCategory.impact
  else if is_india then NewsCategory.india
  else if is_global then NewsCategory.globalNews
  else if ["Reuters", "CNBC", "Financial Express"].contains a.source then
    NewsCategory.impact
  else NewsCategory.globalNews

/-- The accumulation step of the categorize_news loop: append the bullet of
the article to the bucket selected by the classifier branch. -/
def categorizeStep (acc : List String × List String × List String)
    (a : Article) : List String × List String × List String :=
  match classifyArticle a with
  | NewsCategory.impact => (acc.1 ++ [bulletOf a], acc.2.1, acc.2.2)
  | NewsCategory.india => (acc.1, acc.2.1 ++ [bulletOf a], acc.2.2)
  | NewsCategory.globalNews => (acc.1, acc.2.1, acc.2.2 ++ [bulletOf a])

/-- SimpleNewsClassifier.categorize_news: distribute the articles over the
impact, india and global buckets in arrival order, truncate each bucket to 7
entries, and return the bucket dictionary. -/
def categorize_news (articles : List Article) : List (String × List String) :=
  let buckets := articles.foldl categorizeStep ([], [], [])
  [("impact", buckets.1.take 7),
   ("india", buckets.2.1.take 7),
   ("global", buckets.2.2.take 7)]

/-! ## News highlights generator (NewsHighlightsGenerator) -/

/-- Python dict.get with an empty-list default over an association list. -/
def dictGetD (d : List (String × List String)) (k : String) : List String :=
  match d.find? (fun p => p.1 == k) with
  | some p => p.2
  | none => []

/-- NewsHighlightsGenerator.categorize_news: the empty article list yields the
two-key no-articles dictionary, any other list is delegated to the simple
classifier. -/
def generator_categorize_news (articles : List Article) :
    List (String × List String) :=
  if articles.isEmpty then
    [("economic_policy", ["No articles found to categorize"]),
     ("corporate_news", ["No articles found to categorize"])]
  else
    categorize_news articles

/-- The result of NewsHighlightsGenerator.get_news_highlights: either the
error dictionary produced when nothing was scraped, or the highlights
dictionary carrying the economic-policy and corporate-news keys. -/
inductive NewsResult where
  | failure (message : String)
  | highlights (economic_policy : List String) (corporate_news : List String)
deriving DecidableEq, Repr

/-- Assembly phase of NewsHighlightsGenerator.get_news_highlights, as a
function of the articles scraped from all sources and of the failed source
names: with no articles an error result; otherwise the categorized
dictionary is read back through the economic-policy and corporate-news keys
with an empty-list default. -/
def get_news_highlights (all_articles : List Article)
    (failed_sources : List String) : NewsResult :=
  if all_articles.isEmpty then
    NewsResult.failure
      ("Failed to scrape any articles. Failed sources: "
        ++ String.intercalate ", " failed_sources)
  else
    let categorized_news := generator_categorize_news all_articles
    NewsResult.highlights
      (dictGetD categorized_news "economic_policy")
      (dictGetD categorized_news "corporate_news")

/-! ## Aggregation orchestrator (stock/api.py, get_comprehensive_market_data)

The composite document is a Python dict keyed by section names, modelled as
an ordered association list with the Python assignment semantics: assigning
to an existing key replaces its value in place, assigning to a new key
appends it. Each section pipeline is an external computation that either
returns a payload or raises, modelled by Except; the two Gemini calls of the
enrichment phase are likewise black-box Except computations. -/

/-- One value of the composite document: a populated section payload, the
single-key error placeholder built by a failure boundary, the analysis
section, the summary section, or the metadata block with its generation
status. -/
inductive DocValue (α : Type) where
  | payload (v : α)
  | errorEntry (msg : String)
  | analysisEntry (text : String)
  | summaryEntry (text : String)
  | metaEntry (generation_status : String)
deriving DecidableEq, Repr

/-- Python dict assignment on an ordered association list: replace the first
binding of the key in place, or append a new binding. -/
def docSet {α : Type} : List (String × DocValue α) → String → DocValue α →
    List (String × DocValue α)
  | [], k, v => [(k, v)]
  | (k₀, v₀) :: rest, k, v =>
    if k₀ = k then (k₀, v) :: rest else (k₀, v₀) :: docSet rest k v

/-- Python dict lookup on an ordered association list. -/
def docGet? {α : Type} (d : List (String × DocValue α)) (k : String) :
    Option (DocValue α) :=
  (d.find? (fun p => p.1 = k)).map (fun p => p.2)

/-- Python dict.update: assign every binding of the second document into the
first, in order. -/
def docUpdate {α : Type} (d e : List (String × DocValue α)) :
    List (String × DocValue α) :=
  e.foldl (fun acc p => docSet acc p.1 p.2) d

/-- The outcomes of the six independent section pipelines of one
orchestrator run: each either produced its payload or raised with a message. -/
structure SectionOutcomes (α : Type) where
  sector_and_fii : Except String α
  news_highlights : Except String α
  financial_indicators : Except String α
  market_snapshot : Except String α
  market_overview : Except String α
  top_performers : Except String α

/-- The try/except failure boundary around one section: a payload on
success, the error placeholder holding the exception message on failure. -/
def sectionEntry {α : Type} : Except String α → DocValue α
  | Except.ok v => DocValue.payload v
  | Except.error e => DocValue.errorEntry e

/-- The analysis try block of the enrichment phase: a missing Google API key
raises before the Gemini call; otherwise the black-box analysis call decides
the outcome. -/
def analysisPhase (google_api_key : Option String)
    (generate_market_analysis : Except String String) : Except String String :=
  match google_api_key with
  | none => Except.error "GOOGLE_API_KEY is required for Gemini analysis"
  | some _ => generate_market_analysis

/-- The failure boundary of the analysis try block: the analysis section on
success, the error placeholder holding the exception message on failure. -/
def analysisEntryOf {α : Type} : Except String String → DocValue α
  | Except.ok text => DocValue.analysisEntry text
  | Except.error e => DocValue.errorEntry e

/-- The failure boundary of the summary try block: the summary section on
success, the error placeholder holding the exception message on failure. -/
def summaryEntryOf {α : Type} : Except String String → DocValue α
  | Except.ok s => DocValue.summaryEntry s
  | Except.error e => DocValue.errorEntry e

/-- get_comprehensive_market_data of stock/api.py, as a function of the six
section outcomes, the optional API key and the two black-box Gemini calls:
each section resolves inside its own failure boundary; the analysis section
is written first into the final document; the section results are copied in
by dict.update; the summary step is skipped with its own error entry when
the analysis failed and otherwise calls Gemini on the analysis text read
back from the document; the metadata block is set to complete at the end. -/
def get_comprehensive_market_data {α : Type} (oc : SectionOutcomes α)
    (google_api_key : Option String)
    (generate_market_analysis : Except String String)
    (generate_market_summary : String → Except String String) :
    List (String × DocValue α) :=
  let result : List (String × DocValue α) := []
  let result := docSet result "sector_and_fii" (sectionEntry oc.sector_and_fii)
  let result := docSet result "news_highlights" (sectionEntry oc.news_highlights)
  let result := docSet result "financial_indicators" (sectionEntry oc.financial_indicators)
  let result := docSet result "market_snapshot" (sectionEntry oc.market_snapshot)
  let result := docSet result "market_overview" (sectionEntry oc.market_overview)
  let result := docSet result "top_performers" (sectionEntry oc.top_performers)
  let analysisResult := analysisPhase google_api_key generate_market_analysis
  let analysisValue : DocValue α := analysisEntryOf analysisResult
  let final_result : List (String × DocValue α) := []
  let final_result := docSet final_result "market_analysis" analysisValue
  let final_result := docUpdate final_result result
  let summaryResult : Except String String :=
    match analysisResult with
    | Except.error _ =>
      Except.error "Cannot generate summary without successful analysis"
    | Except.ok _ =>
      let market_analysis :=
        match docGet? final_result "market_analysis" with
        | some (DocValue.analysisEntry text) => text
        | _ => ""
      generate_market_summary market_analysis
  let summaryValue : DocValue α := summaryEntryOf summaryResult
  let final_result := docSet final_result "summary" summaryValue
  docSet final_result "_meta" (DocValue.metaEntry "complete")

/-! ## Helper lemmas about the document operations -/

/-- Looking up a key right after assigning it yields the assigned value. -/
theorem docGet?_docSet_self {α : Type} (d : List (String × DocValue α))
    (k : String) (v : DocValue α) : docGet? (docSet d k v) k = some v := by
  induction d with
  | nil => simp [docSet, docGet?, List.find?]
  | cons p rest ih =>
    obtain ⟨k₀, v₀⟩ := p
    by_cases h : k₀ = k
    · subst h
      simp [docSet, docGet?, List.find?]
    · simp only [docSet, if_neg h]
      simpa [docGet?, List.find?, h] using ih

/-- Assigning one key leaves the lookup of any other key unchanged. -/
theorem docGet?_docSet_ne {α : Type} (d : List (String × DocValue α))
    (k' k : String) (v : DocValue α) (h : k' ≠ k) :
    docGet? (docSet d k' v) k = docGet? d k := by
  induction d with
  | nil => simp [docSet, docGet?, List.find?, h]
  | cons p rest ih =>
    obtain ⟨k₀, v₀⟩ := p
    by_cases h₀ : k₀ = k'
    · subst h₀
      simp [docSet, docGet?, List.find?, h]
    · simp only [docSet, if_neg h₀]
      by_cases h₁ : k₀ = k
      · simp [docGet?, List.find?, h₁]
      · simpa [docGet?, List.find?, h₁] using ih

/-! ## Claim theorems for the orchestrator -/

/-- C1: in get_comprehensive_market_data, if the news-scraping section
raises an exception, the composite maps news_highlights to the error
placeholder holding the exception message, and every other section entry is
exactly the failure-boundary image of its own pipeline outcome, unaffected
by the news failure. -/
theorem orchestrator_news_failure_isolated {α : Type} (oc : SectionOutcomes α)
    (google_api_key : Option String) (genA : Except String String)
    (genS : String → Except String String) (msg : String)
    (h : oc.news_highlights = Except.error msg) :
    docGet? (get_comprehensive_market_data oc google_api_key genA genS)
        "news_highlights" = some (DocValue.errorEntry msg) ∧
    docGet? (get_comprehensive_market_data oc google_api_key genA genS)
        "sector_and_fii" = some (sectionEntry oc.sector_and_fii) ∧
    docGet? (get_comprehensive_market_data oc google_api_key genA genS)
        "financial_indicators" = some (sectionEntry oc.financial_indicators) ∧
    docGet? (get_comprehensive_market_data oc google_api_key genA genS)
        "market_snapshot" = some (sectionEntry oc.market_snapshot) ∧
    docGet? (get_comprehensive_market_data oc google_api_key genA genS)
        "market_overview" = some (sectionEntry oc.market_overview) ∧
    docGet? (get_comprehensive_market_data oc google_api_key genA genS)
        "top_performers" = some (sectionEntry oc.top_performers) := by
  refine ⟨?_, ?_, ?_, ?_, ?_, ?_⟩ <;>
    simp [get_comprehensive_market_data, docUpdate, docSet, docGet?,
      List.find?, h, sectionEntry]

/-- C1 witness: a concrete run in which the news pipeline raised while the
other pipelines succeeded. -/
theorem orchestrator_news_failure_isolated_witness :
    docGet? (get_comprehensive_market_data
        { sector_and_fii := Except.ok "sectors"
          news_highlights := Except.error "news scrape failed"
          financial_indicators := Except.ok "indicators"
          market_snapshot := Except.ok "snapshot"
          market_overview := Except.ok "overview"
          top_performers := Except.ok "performers" }
        (some "key") (Except.ok "analysis text") (fun _ => Except.ok "summary text"))
        "news_highlights" = some (DocValue.errorEntry "news scrape failed") ∧
    docGet? (get_comprehensive_market_data
        { sector_and_fii := Except.ok "sectors"
          news_highlights := Except.error "news scrape failed"
          financial_indicators := Except.ok "indicators"
          market_snapshot := Except.ok "snapshot"
          market_overview := Except.ok "overview"
          top_performers := Except.ok "performers" }
        (some "key") (Except.ok "analysis text") (fun _ => Except.ok "summary text"))
        "sector_and_fii" = some (DocValue.payload "sectors") :=
  ⟨(orchestrator_news_failure_isolated
      { sector_and_fii := Except.ok "sectors"
        news_highlights := Except.error "news scrape failed"
        financial_indicators := Except.ok "indicators"
        market_snapshot := Except.ok "snapshot"
        market_overview := Except.ok "overview"
        top_performers := Except.ok "performers" }
      (some "key") (Except.ok "analysis text") (fun _ => Except.ok "summary text")
      "news scrape failed" rfl).1,
   (orchestrator_news_failure_isolated
      { sector_and_fii := Except.ok "sectors"
        news_highlights := Except.error "news scrape failed"
        financial_indicators := Except.ok "indicators"
        market_snapshot := Except.ok "snapshot"
        market_overview := Except.ok "overview"
        top_performers := Except.ok "performers" }
      (some "key") (Except.ok "analysis text") (fun _ => Except.ok "summary text")
      "news scrape failed" rfl).2.1⟩

/-- C2: every run of get_comprehensive_market_data ends with the metadata
block reporting generation status complete, whatever the six section
outcomes, the API key and the two Gemini calls did. -/
theorem orchestrator_meta_always_complete {α : Type} (oc : SectionOutcomes α)
    (google_api_key : Option String) (genA : Except String String)
    (genS : String → Except String String) :
    docGet? (get_comprehensive_market_data oc google_api_key genA genS) "_meta"
      = some (DocValue.metaEntry "complete") := by
  simp only [get_comprehensive_market_data]
  rw [docGet?_docSet_self]

/-- C9: in the enrichment phase of get_comprehensive_market_data, a missing
API key makes the analysis step fail with the fixed message; whenever the
analysis step fails with some message, the market-analysis section holds
that error, and the summary step is skipped with its own error placeholder;
whenever the analysis step succeeds, the summary section is exactly the
failure-boundary image of the summary Gemini call applied to the analysis
text produced in the same run. -/
theorem orchestrator_enrichment_isolation {α : Type} (oc : SectionOutcomes α)
    (google_api_key : Option String) (genA : Except String String)
    (genS : String → Except String String) :
    (google_api_key = none →
      analysisPhase google_api_key genA
        = Except.error "GOOGLE_API_KEY is required for Gemini analysis") ∧
    (∀ e, analysisPhase google_api_key genA = Except.error e →
      docGet? (get_comprehensive_market_data oc google_api_key genA genS)
          "market_analysis" = some (DocValue.errorEntry e) ∧
      docGet? (get_comprehensive_market_data oc google_api_key genA genS)
          "summary"
        = some (DocValue.errorEntry
            "Cannot generate summary without successful analysis")) ∧
    (∀ t, analysisPhase google_api_key genA = Except.ok t →
      docGet? (get_comprehensive_market_data oc google_api_key genA genS)
          "market_analysis" = some (DocValue.analysisEntry t) ∧
      docGet? (get_comprehensive_market_data oc google_api_key genA genS)
          "summary" = some (summaryEntryOf (genS t))) := by
  refine ⟨?_, ?_, ?_⟩
  · intro hk
    simp [analysisPhase, hk]
  · intro e he
    constructor <;>
      simp [get_comprehensive_market_data, docUpdate, docSet, docGet?,
        List.find?, he, analysisEntryOf, summaryEntryOf]
  · intro t ht
    constructor <;>
      simp [get_comprehensive_market_data, docUpdate, docSet, docGet?,
        List.find?, ht, analysisEntryOf, summaryEntryOf]

/-- C9 witness: with the API key absent, the analysis step fails with the
fixed message, the market-analysis section holds that error and the summary
section holds its own skip error; and a concrete successful analysis routes
the summary Gemini call through the analysis text of the same run. -/
theorem orchestrator_enrichment_isolation_witness :
    analysisPhase none (Except.ok "unused")
      = Except.error "GOOGLE_API_KEY is required for Gemini analysis" ∧
    docGet? (get_comprehensive_market_data
        { sector_and_fii := Except.ok "sectors"
          news_highlights := Except.ok "news"
          financial_indicators := Except.ok "indicators"
          market_snapshot := Except.ok "snapshot"
          market_overview := Except.ok "overview"
          top_performers := Except.ok "performers" }
        none (Except.ok "unused") (fun a => Except.ok ("summary of " ++ a)))
        "summary"
      = some (DocValue.errorEntry
          "Cannot generate summary without successful analysis") ∧
    docGet? (get_comprehensive_market_data
        { sector_and_fii := Except.ok "sectors"
          news_highlights := Except.ok "news"
          financial_indicators := Except.ok "indicators"
          market_snapshot := Except.ok "snapshot"
          market_overview := Except.ok "overview"
          top_performers := Except.ok "performers" }
        (some "key") (Except.ok "the analysis")
        (fun a => Except.ok ("summary of " ++ a)))
        "summary"
      = some (DocValue.summaryEntry "summary of the analysis") :=
  ⟨((orchestrator_enrichment_isolation
      { sector_and_fii := Except.ok "sectors"
        news_highlights := Except.ok "news"
        financial_indicators := Except.ok "indicators"
        market_snapshot := Except.ok "snapshot"
        market_overview := Except.ok "overview"
        top_performers := Except.ok "performers" }
      none (Except.ok "unused")
      (fun a => Except.ok ("summary of " ++ a))).1 rfl),
   (((orchestrator_enrichment_isolation
      { sector_and_fii := Except.ok "sectors"
        news_highlights := Except.ok "news"
        financial_indicators := Except.ok "indicators"
        market_snapshot := Except.ok "snapshot"
        market_overview := Except.ok "overview"
        top_performers := Except.ok "performers" }
      none (Except.ok "unused")
      (fun a => Except.ok ("summary of " ++ a))).2.1
        "GOOGLE_API_KEY is required for Gemini analysis" rfl).2),
   (((orchestrator_enrichment_isolation
      { sector_and_fii := Except.ok "sectors"
        news_highlights := Except.ok "news"
        financial_indicators := Except.ok "indicators"
        market_snapshot := Except.ok "snapshot"
        market_overview := Except.ok "overview"
        top_performers := Except.ok "performers" }
      (some "key") (Except.ok "the analysis")
      (fun a => Except.ok ("summary of " ++ a))).2.2
        "the analysis" rfl).2)⟩


/-! ## Claim theorems for the sector normalizer -/

/-- Every element of an insertion is the inserted record or an element of
the original list. -/
theorem mem_insertDesc {r x : SectorRecord} {l : List SectorRecord}
    (h : x ∈ insertDesc r l) : x = r ∨ x ∈ l := by
  induction l with
  | nil => simpa [insertDesc] using h
  | cons y ys ih =>
    by_cases hc : r.change_percentage ≤ y.change_percentage
    · simp only [insertDesc, if_pos hc] at h
      rcases List.mem_cons.mp h with rfl | h'
      · exact Or.inr (List.mem_cons_self _ _)
      · rcases ih h' with rfl | h''
        · exact Or.inl rfl
        · exact Or.inr (List.mem_cons_of_mem _ h'')
    · simp only [insertDesc, if_neg hc] at h
      rcases List.mem_cons.mp h with rfl | h'
      · exact Or.inl rfl
      · exact Or.inr h'

/-- Insertion into a descending-sorted list keeps it descending-sorted. -/
theorem pairwise_insertDesc {r : SectorRecord} {l : List SectorRecord}
    (h : l.Pairwise sectorDescGe) : (insertDesc r l).Pairwise sectorDescGe := by
  induction l with
  | nil => simp [insertDesc]
  | cons y ys ih =>
    rw [List.pairwise_cons] at h
    obtain ⟨hy, hys⟩ := h
    by_cases hc : r.change_percentage ≤ y.change_percentage
    · simp only [insertDesc, if_pos hc]
      rw [List.pairwise_cons]
      refine ⟨?_, ih hys⟩
      intro z hz
      rcases mem_insertDesc hz with rfl | hz'
      · exact hc
      · exact hy z hz'
    · simp only [insertDesc, if_neg hc]
      rw [List.pairwise_cons]
      push_neg at hc
      refine ⟨?_, List.pairwise_cons.mpr ⟨hy, hys⟩⟩
      intro z hz
      rcases List.mem_cons.mp hz with rfl | hz'
      · exact le_of_lt hc
      · exact le_trans (hy z hz') (le_of_lt hc)

/-- The insertion sort used for sectors always produces a
descending-sorted list. -/
theorem pairwise_sortSectorsDesc (l : List SectorRecord) :
    (sortSectorsDesc l).Pairwise sectorDescGe := by
  induction l with
  | nil => simp [sortSectorsDesc]
  | cons r rest ih => exact pairwise_insertDesc ih

/-- Insertion grows the list length by one. -/
theorem length_insertDesc (r : SectorRecord) (l : List SectorRecord) :
    (insertDesc r l).length = l.length + 1 := by
  induction l with
  | nil => rfl
  | cons x xs ih =>
    by_cases hc : r.change_percentage ≤ x.change_percentage
    · simp [insertDesc, hc, ih]
    · simp [insertDesc, hc]

/-- The sector sort preserves the list length. -/
theorem length_sortSectorsDesc (l : List SectorRecord) :
    (sortSectorsDesc l).length = l.length := by
  induction l with
  | nil => rfl
  | cons r rest ih => simp [sortSectorsDesc, length_insertDesc, ih]

/-- C6: the sector list returned by scrape_sector_data has at most 11
entries and is sorted descending by change percentage, and empty scraped
input yields the empty list rather than an error. -/
theorem sector_output_sorted_top11 (sector_values : List SectorRecord) :
    (scrape_sector_data sector_values).length ≤ 11 ∧
    (∀ (i j : Fin (scrape_sector_data sector_values).length), i < j →
      ((scrape_sector_data sector_values).get j).change_percentage ≤
        ((scrape_sector_data sector_values).get i).change_percentage) ∧
    scrape_sector_data [] = [] := by
  refine ⟨?_, ?_, rfl⟩
  · simp only [scrape_sector_data, List.length_take]
    omega
  · have hp : (scrape_sector_data sector_values).Pairwise sectorDescGe :=
      (pairwise_sortSectorsDesc sector_values).sublist
        (List.take_sublist 11 (sortSectorsDesc sector_values))
    rw [List.pairwise_iff_get] at hp
    intro i j hij
    exact hp i j hij

/-- Example sector rows for the C6 witness. -/
def egSectorA : SectorRecord :=
  { sector_name := "Energy", num_companies := 10, advances := 6, declines := 4,
    change_percentage := 2, source := "Trendlyne" }

/-- Second example sector row. -/
def egSectorB : SectorRecord :=
  { sector_name := "Realty", num_companies := 8, advances := 1, declines := 7,
    change_percentage := -1, source := "Trendlyne" }

/-- Third example sector row. -/
def egSectorC : SectorRecord :=
  { sector_name := "FMCG", num_companies := 12, advances := 9, declines := 3,
    change_percentage := 5, source := "Trendlyne" }

/-- The example output has exactly three entries. -/
theorem egSectors_len :
    (scrape_sector_data [egSectorA, egSectorB, egSectorC]).length = 3 := by
  simp [scrape_sector_data, List.length_take, length_sortSectorsDesc]

/-- Position 0 is inside the example output. -/
theorem egSectors_pos0 :
    0 < (scrape_sector_data [egSectorA, egSectorB, egSectorC]).length := by
  rw [egSectors_len]; norm_num

/-- Position 1 is inside the example output. -/
theorem egSectors_pos1 :
    1 < (scrape_sector_data [egSectorA, egSectorB, egSectorC]).length := by
  rw [egSectors_len]; norm_num

/-- C6 witness: on a concrete three-row input, the entry in position 1 has a
change percentage at most that of the entry in position 0. -/
theorem sector_output_sorted_top11_witness :
    ((scrape_sector_data [egSectorA, egSectorB, egSectorC]).get
        ⟨1, egSectors_pos1⟩).change_percentage ≤
      ((scrape_sector_data [egSectorA, egSectorB, egSectorC]).get
        ⟨0, egSectors_pos0⟩).change_percentage :=
  (sector_output_sorted_top11 [egSectorA, egSectorB, egSectorC]).2.1
    ⟨0, egSectors_pos0⟩ ⟨1, egSectors_pos1⟩ (by decide)

/-- C10: any raw label whose lower-casing contains one of the substrings
it, software, tech or information is mapped to Information Technology by
map_to_standard_sector, whatever else the label contains. -/
theorem sector_it_substring (sector_name : String)
    (h : (["it", "software", "tech", "information"].any
        (strContains (strLower sector_name))) = true) :
    map_to_standard_sector sector_name = "Information Technology" := by
  simp [map_to_standard_sector, h]

/-- C10 witness: the labels Hospitality and Capital Goods both contain the
substring it after lower-casing, so both are mapped to Information
Technology instead of passing through title-cased. -/
theorem sector_it_substring_witness :
    map_to_standard_sector "Hospitality" = "Information Technology" ∧
    map_to_standard_sector "Capital Goods" = "Information Technology" :=
  ⟨sector_it_substring "Hospitality" (by decide),
   sector_it_substring "Capital Goods" (by decide)⟩

/-! ## Claim theorems for the multi-source combiner -/

/-- Field-wise characterization of the accumulation loop: each numeric field
of the fold is the accumulator field plus the sum of that field over the
records, and the source field is untouched. -/
theorem combine_foldl_fields (records : List InstRecord) (acc : InstRecord) :
    (records.foldl combineStep acc).fii.buy_value
        = acc.fii.buy_value + (records.map (fun r => r.fii.buy_value)).sum ∧
    (records.foldl combineStep acc).fii.sell_value
        = acc.fii.sell_value + (records.map (fun r => r.fii.sell_value)).sum ∧
    (records.foldl combineStep acc).fii.net_value
        = acc.fii.net_value + (records.map (fun r => r.fii.net_value)).sum ∧
    (records.foldl combineStep acc).dii.buy_value
        = acc.dii.buy_value + (records.map (fun r => r.dii.buy_value)).sum ∧
    (records.foldl combineStep acc).dii.sell_value
        = acc.dii.sell_value + (records.map (fun r => r.dii.sell_value)).sum ∧
    (records.foldl combineStep acc).dii.net_value
        = acc.dii.net_value + (records.map (fun r => r.dii.net_value)).sum ∧
    (records.foldl combineStep acc).source = acc.source := by
  induction records generalizing acc with
  | nil => simp
  | cons r rs ih =>
    obtain ⟨h1, h2, h3, h4, h5, h6, h7⟩ := ih (combineStep acc r)
    simp only [List.foldl_cons, List.map_cons, List.sum_cons]
    refine ⟨?_, ?_, ?_, ?_, ?_, ?_, ?_⟩
    · rw [h1]; simp [combineStep, add_assoc]
    · rw [h2]; simp [combineStep, add_assoc]
    · rw [h3]; simp [combineStep, add_assoc]
    · rw [h4]; simp [combineStep, add_assoc]
    · rw [h5]; simp [combineStep, add_assoc]
    · rw [h6]; simp [combineStep, add_assoc]
    · rw [h7]; simp [combineStep]

/-- C4: with zero per-source records, scrape_institutional_data returns the
zero-valued FII and DII placeholder with the no-data source sentinel,
instead of failing. -/
theorem combiner_zero_sources (sources_successful : List String) :
    scrape_institutional_data [] sources_successful
      = { fii := zeroInstValues, dii := zeroInstValues
          source := "No data available" } := rfl

/-- C5: for every non-empty record list, each of the six numeric output
fields of scrape_institutional_data is the arithmetic mean of that field
over the sources, and the output source is the comma-joined successful
source names. -/
theorem combiner_field_means (records : List InstRecord) (srcs : List String)
    (h : records ≠ []) :
    (scrape_institutional_data records srcs).fii.buy_value
        = (records.map (fun r => r.fii.buy_value)).sum / (records.length : Rat) ∧
    (scrape_institutional_data records srcs).fii.sell_value
        = (records.map (fun r => r.fii.sell_value)).sum / (records.length : Rat) ∧
    (scrape_institutional_data records srcs).fii.net_value
        = (records.map (fun r => r.fii.net_value)).sum / (records.length : Rat) ∧
    (scrape_institutional_data records srcs).dii.buy_value
        = (records.map (fun r => r.dii.buy_value)).sum / (records.length : Rat) ∧
    (scrape_institutional_data records srcs).dii.sell_value
        = (records.map (fun r => r.dii.sell_value)).sum / (records.length : Rat) ∧
    (scrape_institutional_data records srcs).dii.net_value
        = (records.map (fun r => r.dii.net_value)).sum / (records.length : Rat) ∧
    (scrape_institutional_data records srcs).source
        = String.intercalate ", " srcs := by
  obtain ⟨h1, h2, h3, h4, h5, h6, h7⟩ := combine_foldl_fields records
    { fii := zeroInstValues, dii := zeroInstValues
      source := String.intercalate ", " srcs }
  simp only [scrape_institutional_data, if_pos h]
  exact ⟨by rw [h1]; simp [zeroInstValues], by rw [h2]; simp [zeroInstValues],
    by rw [h3]; simp [zeroInstValues], by rw [h4]; simp [zeroInstValues],
    by rw [h5]; simp [zeroInstValues], by rw [h6]; simp [zeroInstValues], h7⟩

/-- First example institutional record for the C5 witness. -/
def egInstA : InstRecord :=
  { fii := { buy_value := 100, sell_value := 50, net_value := 50 }
    dii := { buy_value := 10, sell_value := 5, net_value := 5 }
    source := "MoneyControl" }

/-- Second example institutional record for the C5 witness. -/
def egInstB : InstRecord :=
  { fii := { buy_value := 200, sell_value := 150, net_value := 50 }
    dii := { buy_value := 30, sell_value := 15, net_value := 15 }
    source := "Trendlyne" }

/-- C5 witness: two sources with FII buy values 100 and 200 combine to the
mean 150, and the provenance is the comma-joined source list. -/
theorem combiner_field_means_witness :
    (scrape_institutional_data [egInstA, egInstB]
        ["MoneyControl", "Trendlyne"]).fii.buy_value = 150 ∧
    (scrape_institutional_data [egInstA, egInstB]
        ["MoneyControl", "Trendlyne"]).source = "MoneyControl, Trendlyne" := by
  have h := combiner_field_means [egInstA, egInstB] ["MoneyControl", "Trendlyne"]
    (by simp)
  refine ⟨?_, ?_⟩
  · rw [h.1]
    norm_num [egInstA, egInstB]
  · rw [h.2.2.2.2.2.2]
    rfl

/-! ## Claim theorems for the news classifier and highlights assembly -/

/-- C7: every article whose lowered title or summary contains at least one
impact keyword is filed under the impact bucket by the classifier branch,
regardless of any India or global keywords it also contains. -/
theorem classifier_impact_priority (a : Article)
    (h : keywordHit (articleTitleLower a) (articleSummaryLower a)
        impact_keywords = true) :
    classifyArticle a = NewsCategory.impact := by
  simp [classifyArticle, h]

/-- The RBI example article of the spec. -/
def rbiArticle : Article :=
  { title := "RBI raises interest rate", summary := "No summary available"
    source := "Unknown Source" }

/-- C7 witness: the RBI article matches the India keyword list as well, yet
the classifier files it under impact because the impact keyword list matches
first. -/
theorem classifier_impact_priority_witness :
    keywordHit (articleTitleLower rbiArticle) (articleSummaryLower rbiArticle)
        india_keywords = true ∧
    classifyArticle rbiArticle = NewsCategory.impact :=
  ⟨by decide, classifier_impact_priority rbiArticle (by decide)⟩

/-- C3: for every non-empty article list, the news-highlights assembly
returns the highlights dictionary whose economic-policy and corporate-news
entries are both the empty list, because the classifier dictionary only
carries the impact, india and global keys and the assembly reads the two
absent keys with an empty default. -/
theorem news_highlights_keys_empty (all_articles : List Article)
    (failed_sources : List String) (h : all_articles ≠ []) :
    get_news_highlights all_articles failed_sources
      = NewsResult.highlights [] [] := by
  have he : all_articles.isEmpty = false := by
    cases all_articles with
    | nil => exact absurd rfl h
    | cons a rest => rfl
  simp [get_news_highlights, he, generator_categorize_news, categorize_news,
    dictGetD, List.find?]

/-- Example article for the C3 witness. -/
def egArticle : Article :=
  { title := "Sensex ends higher", summary := "Markets rallied on bank stocks"
    source := "CNBC" }

/-- C3 witness: a concrete one-article run returns empty economic-policy and
corporate-news lists even though the article itself was classified. -/
theorem news_highlights_keys_empty_witness :
    get_news_highlights [egArticle] [] = NewsResult.highlights [] [] :=
  news_highlights_keys_empty [egArticle] [] (by simp)

/-! ## Claim theorems for the selector fallback engine -/

/-- Skipping soft-failing strategies: with every strategy before the first
productive one yielding no table or no parsed rows, the engine returns the
rows of the productive strategy and invokes exactly the strategies up to and
including it. -/
theorem fallback_skip_soft (rows : List SectorRecord)
    (post : List (Option (List SectorRecord))) :
    ∀ pre : List (Option (List SectorRecord)),
      (∀ s ∈ pre, s = none ∨ s = some []) → rows ≠ [] →
      process_trendlyne_sector (pre ++ some rows :: post)
        = (rows, pre.length + 1) := by
  intro pre
  induction pre with
  | nil =>
    intro _ hrows
    simp only [List.nil_append, process_trendlyne_sector]
    rw [if_pos (List.length_pos.mpr hrows)]
    simp
  | cons s pre' ih =>
    intro hpre hrows
    have hpre' : ∀ x ∈ pre', x = none ∨ x = some [] :=
      fun x hx => hpre x (List.mem_cons_of_mem _ hx)
    rcases hpre s (List.mem_cons_self _ _) with rfl | rfl
    · simp only [List.cons_append, process_trendlyne_sector, List.append_eq]
      rw [ih hpre' hrows]
      simp
    · simp only [List.cons_append, process_trendlyne_sector, List.append_eq]
      rw [if_neg (by simp), ih hpre' hrows]
      simp

/-- All-soft exhaustion: when every strategy yields no table or no parsed
rows, the engine returns the empty row list after invoking every strategy. -/
theorem fallback_all_soft :
    ∀ l : List (Option (List SectorRecord)),
      (∀ s ∈ l, s = none ∨ s = some []) →
      process_trendlyne_sector l = ([], l.length) := by
  intro l
  induction l with
  | nil => intro _; rfl
  | cons s rest ih =>
    intro hl
    have hrest : ∀ x ∈ rest, x = none ∨ x = some [] :=
      fun x hx => hl x (List.mem_cons_of_mem _ hx)
    rcases hl s (List.mem_cons_self _ _) with rfl | rfl
    · simp only [process_trendlyne_sector]
      rw [ih hrest]
      simp
    · simp only [process_trendlyne_sector]
      rw [if_neg (by simp), ih hrest]
      simp

/-- C8: the selector fallback engine walks the ordered strategies, returns
the rows of the first strategy that parses at least one row having invoked
only the strategies up to it, and with every strategy yielding zero rows it
reports the empty result after trying them all, without raising. -/
theorem fallback_first_success
    (pre : List (Option (List SectorRecord))) (rows : List SectorRecord)
    (post : List (Option (List SectorRecord)))
    (hpre : ∀ s ∈ pre, s = none ∨ s = some []) (hrows : rows ≠ []) :
    process_trendlyne_sector (pre ++ some rows :: post)
        = (rows, pre.length + 1) ∧
    (∀ l : List (Option (List SectorRecord)),
      (∀ s ∈ l, s = none ∨ s = some []) →
      process_trendlyne_sector l = ([], l.length)) :=
  ⟨fallback_skip_soft rows post pre hpre hrows, fallback_all_soft⟩

/-- C8 witness: with strategy A yielding zero parsed rows and strategy B
yielding three, the engine returns the three rows of B and invokes only two
strategies, leaving the third untried. -/
theorem fallback_first_success_witness :
    process_trendlyne_sector
        [some [], some [egSectorA, egSectorB, egSectorC], some [egSectorA]]
      = ([egSectorA, egSectorB, egSectorC], 2) :=
  (fallback_first_success [some []] [egSectorA, egSectorB, egSectorC]
    [some [egSectorA]]
    (by intro s hs; rw [List.mem_singleton] at hs; exact Or.inr hs)
    (by simp)).1
